import Mathlib

/-!
# Verification of the SimpleLogin email-handler engine

Shallow embedding of `email_handler.py` (the SMTP ingress engine): the data
model (Alias, Mailbox, Contact, EmailLog), the per-phase handlers
(`handle_forward`, `handle_reply`, `handle_bounce`, `handle_unsubscribe`),
the top-level dispatcher `handle` / `MailHandler.handle_DATA`, and the
VERP bounce-address codec.

Embedding conventions:
* Database rows are plain structures; foreign keys that the handlers follow
  (`contact.alias`, `alias.user`, ...) are embedded records.
* Imported collaborators that live outside the engine source
  (`app.email_utils`, `app.config`, `app.models` persistence, the spam
  scorer, SPF, the outbound transport) are fields of a `World` record:
  the engine only consumes their results, exactly as in the source.
* Observable side effects (transport sends, notification emails, EmailLog
  creation/flag updates/deletion, quarantined-message creation, bounce
  records, alias disabling) are collected in a `List Effect` trace, in
  program order.
* EmailLog ids are allocated from a counter threaded through every handler
  (`n` below), mirroring `EmailLog.create` returning a fresh row id.
* A Python exception that escapes a handler is modelled by `none` /
  `ReplyRet.single` (see below); `MailHandler.handle_DATA` converts any
  such escape into the generic `"421 SL Retry later"` status, as the
  `except Exception` block in the source does.
-/

namespace SL

/-- Python truthiness of an optional string: `None` and `""` are falsy. -/
def strTruthy : Option String → Bool
  | none => false
  | some s => !s.data.isEmpty

/-- Python `str(x)` on an optional header value: `str(None) = "None"`. -/
def optStr : Option String → String
  | none => "None"
  | some s => s

/-- Python `str.startswith`, evaluated on the character list. -/
def str_starts_with (s pre : String) : Bool := pre.data.isPrefixOf s.data

/-- Python `str.endswith`, evaluated on the character list. -/
def str_ends_with (s suf : String) : Bool := suf.data.isSuffixOf s.data

/-- Python `str.lower`, evaluated on the character list. -/
def str_to_lower (s : String) : String := String.mk (s.data.map Char.toLower)

/-- A real destination mailbox (`app.models.Mailbox`). -/
structure Mailbox where
  id : Nat
  email : String
  verified : Bool
  disabled : Bool
  pgp_enabled : Bool
  authorized_addresses : List String
  force_spf : Bool
deriving Repr, DecidableEq

/-- An account (`app.models.User`); only the fields the engine reads. -/
structure User where
  id : Nat
  email : String
  disabled : Bool
  max_spam_score : Option Rat
  is_premium : Bool
  replace_reverse_alias : Bool
deriving Repr, DecidableEq

/-- A published alias (`app.models.Alias`); `default_mailbox` is the
`alias.mailbox` relationship, `mailboxes` the full ordered set. -/
structure Alias where
  id : Nat
  email : String
  user : User
  enabled : Bool
  mailboxes : List Mailbox
  default_mailbox : Mailbox
  name : Option String
  disable_pgp : Bool
  disable_email_spoofing_check : Bool
deriving Repr, DecidableEq

/-- A per-alias external party (`app.models.Contact`); `al` is the
`contact.alias` relationship. -/
structure Contact where
  id : Nat
  al : Alias
  website_email : String
  reply_email : String
  invalid_email : Bool
  pgp_finger_print : Option String
  user_id : Nat
deriving Repr, DecidableEq

/-- One delivery attempt (`app.models.EmailLog`); `contact` is the
`email_log.contact` relationship followed by the bounce handler. -/
structure EmailLog where
  id : Nat
  contact : Contact
  is_reply : Bool
  mailbox : Option Mailbox
deriving Repr, DecidableEq

/-- A transactional-email record (`app.models.TransactionalEmail`). -/
structure TransactionalEmail where
  id : Nat
  email : String
deriving Repr, DecidableEq

/-- One SMTP envelope (`aiosmtpd.smtp.Envelope`). -/
structure Envelope where
  mail_from : String
  rcpt_tos : List String
deriving Repr, DecidableEq

/-- The parsed message; only the pieces the handlers inspect. -/
structure Msg where
  content_type : String
  from_header : Option String
  reply_to : Option String
  subject : Option String
deriving Repr, DecidableEq

/-- Outcome of one `sl_sendmail` call: delivered, the recipient was
refused (`SMTPRecipientsRefused`), or another transport exception. -/
inductive TransportRes where
  | ok
  | refused
  | errored
deriving Repr, DecidableEq

/-- Observable side effects of the engine, recorded in program order. -/
inductive Effect where
  | sendmail (env_from env_to : String)
  | notify (recipient : String)
  | log_created (logId : Nat) (is_reply : Bool) (blocked : Bool)
  | log_marked_spam (logId : Nat)
  | log_marked_bounced (logId : Nat)
  | log_marked_auto_replied (logId : Nat)
  | log_deleted (logId : Nat)
  | quarantined
  | bounce_recorded (address : String)
  | alias_disabled (aliasId : Nat)
  | user_unsubscribed (userId : Nat)
deriving Repr, DecidableEq

/-- The environment of the engine: configuration (`app.config`), the
Directory read/write contract (`app.models` queries), and the helper
functions imported from `app.email_utils` / `app.utils`, which are not
part of the engine source and are consumed as oracles. -/
structure World where
  -- configuration (app/config.py)
  email_domain : String
  unsubscriber : Option String
  noreply : String
  bounce_pre : String
  bounce_suf : String
  tx_bounce_pre : String
  tx_bounce_suf : String
  enable_spam_assassin : Bool
  spamassassin_host : Bool
  max_spam_score : Rat
  max_reply_phase_spam_score : Rat
  enforce_spf : Bool
  -- Directory lookups (app.models)
  contact_by_reply_email : String → Option Contact
  alias_by_email : String → Option Alias
  alias_by_id : Nat → Option Alias
  user_by_id : Nat → Option User
  email_log_by_id : Nat → Option EmailLog
  transactional_by_id : Nat → Option TransactionalEmail
  try_auto_create : String → Option Alias
  /-- `get_or_create_contact` (source lines 159-247): resolves or creates
  the Contact for a forward; its parsing and Directory-write internals are
  abstracted as one Directory operation returning the resolved row. -/
  get_or_create_contact : String → String → Alias → Contact
  -- helpers from app.email_utils / app.utils (outside the engine source)
  sanitize_email : String → String
  is_reply_email : String → Bool
  normalize_reply_email : String → String
  is_valid_alias_address_domain : String → Bool
  get_email_domain_part : String → String
  greylisting_needed : String → List String → Bool
  parse_id_from_bounce : String → Nat
  should_disable : Alias → Bool
  -- oracles for the external collaborators
  spam_score_of : Msg → Rat
  get_spam_info : Msg → Option Rat → Bool × String
  spf_pass : String → Mailbox → Bool
  pgp_encrypt_ok : Bool
  transport : String → TransportRes

/-- `get_mailbox_from_mail_from` (source lines 988-1003): first mailbox of
the alias whose address, or one of whose authorized addresses, equals the
envelope sender. -/
def get_mailbox_from_mail_from (mail_from : String) (al : Alias) : Option Mailbox :=
  al.mailboxes.find? (fun mb =>
    mb.email == mail_from || mb.authorized_addresses.contains mail_from)

/-- The VERP envelope sender `BOUNCE_EMAIL.format(email_log.id)`: the
delivery-log id in decimal between the configured prefix and suffix. -/
def bounce_address (w : World) (logId : Nat) : String :=
  w.bounce_pre ++ toString logId ++ w.bounce_suf

/-- Effect trace of `handle_spam` (source lines 1258-1352): quarantine the
message (S3 upload + RefusedEmail row) and alert the mailbox owner; both
the forward and the reply branch notify `mailbox.email`. -/
def handle_spam (mailbox : Mailbox) : List Effect :=
  [.quarantined, .notify mailbox.email]

/-- Effect trace of `handle_email_sent_to_ourself` (source lines 438-468):
quarantine the looped message and alert the mailbox that mailed its own
alias. -/
def handle_email_sent_to_ourself (mailbox : Mailbox) : List Effect :=
  [.quarantined, .notify mailbox.email]

/-- The forward-phase spam decision (source lines 617-619): Python
truthiness of `user.max_spam_score` (None and 0.0 falsy) selects the
user's override, else the global `MAX_SPAM_SCORE`. -/
def forward_is_spam (w : World) (user : User) (score : Rat) : Bool :=
  match user.max_spam_score with
  | some s => if s ≠ 0 then decide (score > s) else decide (score > w.max_spam_score)
  | none => decide (score > w.max_spam_score)

/-- `forward_email_to_mailbox` (source lines 547-749): deliver one copy of a
forwarded message to one destination mailbox. `none` models an uncaught
transport exception propagating out. The triple is
(result, next log id, effect trace). -/
def forward_email_to_mailbox (w : World) (al : Alias) (msg : Msg)
    (_env : Envelope) (mailbox : Mailbox) (user : User) (n : Nat) :
    Option (Bool × String) × Nat × List Effect :=
  if mailbox.disabled then (some (false, "550 SL E21 Disabled mailbox"), n, [])
  else if w.get_email_domain_part al.email == w.get_email_domain_part mailbox.email then
    (some (false, "421 SL E14"), n, [.notify user.email])
  else
    let logId := n
    let eLog : List Effect := [.log_created logId false false]
    let is_spam : Bool :=
      if w.enable_spam_assassin then
        if w.spamassassin_host then forward_is_spam w user (w.spam_score_of msg)
        else (w.get_spam_info msg user.max_spam_score).1
      else false
    if is_spam then
      (some (false, "550 SL E1 Email detected as spam"), n + 1,
        eLog ++ [.log_marked_spam logId] ++ handle_spam mailbox)
    else if mailbox.pgp_enabled && user.is_premium && !al.disable_pgp
        && !w.pgp_encrypt_ok then
      (some (false, "421 SL E12 Retry later"), n + 1, eLog)
    else
      let bounceAddr := bounce_address w logId
      match w.transport mailbox.email with
      | .ok => (some (true, "250 Message accepted for delivery"), n + 1,
          eLog ++ [.sendmail bounceAddr mailbox.email])
      | .refused => (some (false, "421 SL E17 Retry later"), n + 1,
          eLog ++ [.sendmail bounceAddr mailbox.email])
      | .errored => (none, n + 1, eLog ++ [.sendmail bounceAddr mailbox.email])

/-- The per-mailbox loop of `handle_forward` (source lines 527-542):
unverified mailboxes contribute a failure outcome, the rest one
`forward_email_to_mailbox` outcome each. -/
def forward_mailboxes (w : World) (al : Alias) (msg : Msg) (env : Envelope)
    (user : User) : List Mailbox → Nat → Option (List (Bool × String)) × Nat × List Effect
  | [], n => (some [], n, [])
  | mb :: rest, n =>
    if !mb.verified then
      match forward_mailboxes w al msg env user rest n with
      | (some res, n1, e1) =>
          (some ((false, "550 SL E19 unverified mailbox") :: res), n1, e1)
      | (none, n1, e1) => (none, n1, e1)
    else
      match forward_email_to_mailbox w al msg env mb user n with
      | (none, n1, e1) => (none, n1, e1)
      | (some r, n1, e1) =>
        match forward_mailboxes w al msg env user rest n1 with
        | (some res, n2, e2) => (some (r :: res), n2, e1 ++ e2)
        | (none, n2, e2) => (none, n2, e1 ++ e2)

/-- `handle_forward` (source lines 471-544): forward-phase orchestration
for one alias-bound recipient. Returns the list of per-delivery
(is_success, smtp_status) outcomes, or `none` if an exception escapes. -/
def handle_forward (w : World) (env : Envelope) (msg : Msg) (rcpt_to : String)
    (n : Nat) : Option (List (Bool × String)) × Nat × List Effect :=
  let address := rcpt_to
  let aliasOpt := match w.alias_by_email address with
    | some a => some a
    | none => w.try_auto_create address
  match aliasOpt with
  | none => (some [(false, "550 SL E3 Email not exist")], n, [])
  | some al =>
    let user := al.user
    if user.disabled then (some [(false, "550 SL E20 Account disabled")], n, [])
    else
      match al.mailboxes.find? (fun mb => mb.email == env.mail_from) with
      | some mb =>
          (some [(true, "250 Message accepted for delivery")], n,
            handle_email_sent_to_ourself mb)
      | none =>
        let from_header :=
          if strTruthy msg.reply_to then optStr msg.reply_to else optStr msg.from_header
        let _contact := w.get_or_create_contact from_header env.mail_from al
        if !al.enabled then
          (some [(true, "250 Message accepted for delivery")], n + 1,
            [.log_created n false true])
        else if al.mailboxes.isEmpty then
          (some [(false, "550 SL E16 invalid mailbox")], n, [])
        else
          forward_mailboxes w al msg env user al.mailboxes n

/-- The result of `handle_reply` as a Python value: every path but one
returns a (bool, str) tuple; the disabled-user path (source line 792)
returns the one-element list `[(False, "550 SL E20 Account disabled")]`,
which the caller's tuple unpacking turns into a `ValueError`. -/
inductive ReplyRet where
  | pair (delivered : Bool) (status : String)
  | single (delivered : Bool) (status : String)
deriving Repr, DecidableEq

/-- Continuation of `handle_reply` after the anti-spoofing check resolved a
mailbox (source lines 811-985): SPF, reply-phase EmailLog, reply-phase
spam gate, PGP, then the outbound send, whose failure is caught and still
answered with an accepted status. -/
def reply_deliver (w : World) (env : Envelope) (msg : Msg) (contact : Contact)
    (al : Alias) (user : User) (mailbox : Mailbox) (n : Nat) :
    ReplyRet × Nat × List Effect :=
  if w.enforce_spf && mailbox.force_spf && !al.disable_email_spoofing_check
      && !(w.spf_pass env.mail_from mailbox) then
    (.pair true "250 SL E11", n, [])
  else
    let logId := n
    let eLog : List Effect := [.log_created logId true false]
    let is_spam : Bool :=
      if w.enable_spam_assassin then
        if w.spamassassin_host then
          decide (w.spam_score_of msg > w.max_reply_phase_spam_score)
        else (w.get_spam_info msg (some w.max_reply_phase_spam_score)).1
      else false
    if is_spam then
      (.pair false "550 SL E15 Email detected as spam", n + 1,
        eLog ++ [.log_marked_spam logId] ++ handle_spam mailbox)
    else if strTruthy contact.pgp_finger_print && user.is_premium
        && !w.pgp_encrypt_ok then
      (.pair false "421 SL E13 Retry later", n + 1, eLog ++ [.log_deleted logId])
    else
      let bounceAddr := bounce_address w logId
      match w.transport contact.website_email with
      | .ok => (.pair true "250 Message accepted for delivery", n + 1,
          eLog ++ [.sendmail bounceAddr contact.website_email])
      | _ => (.pair true "250 Message accepted for delivery", n + 1,
          eLog ++ [.sendmail bounceAddr contact.website_email, .notify mailbox.email])

/-- `handle_reply` (source lines 752-985): reply-phase orchestration for
one reverse-alias recipient. The unauthorized-sender branch notifies the
alias owner and then the unauthorized sender (`handle_unknown_mailbox`,
source lines 1006-1061). -/
def handle_reply (w : World) (env : Envelope) (msg : Msg) (rcpt_to : String)
    (n : Nat) : ReplyRet × Nat × List Effect :=
  if !(str_ends_with rcpt_to w.email_domain) then (.pair false "550 SL E2", n, [])
  else
    let reply_email := w.normalize_reply_email rcpt_to
    match w.contact_by_reply_email reply_email with
    | none => (.pair false "550 SL E4 Email not exist", n, [])
    | some contact =>
      let al := contact.al
      if !w.is_valid_alias_address_domain al.email then (.pair false "550 SL E5", n, [])
      else
        let user := al.user
        let mail_from := env.mail_from
        if user.disabled then (.single false "550 SL E20 Account disabled", n, [])
        else
          match get_mailbox_from_mail_from mail_from al with
          | none =>
            if al.disable_email_spoofing_check then
              reply_deliver w env msg contact al user al.default_mailbox n
            else
              (.pair false "550 SL E7", n, [.notify user.email, .notify mail_from])
          | some mailbox => reply_deliver w env msg contact al user mailbox n

/-- `handle_unsubscribe_user` (source lines 1415-1442). -/
def handle_unsubscribe_user (w : World) (user_id : Nat) (mail_from : String) :
    String × List Effect :=
  match w.user_by_id user_id with
  | none => ("550 SL E22 so such user", [])
  | some user =>
    if mail_from ≠ user.email then ("550 SL E23 unsubscribe error", [])
    else ("250 Unsubscribe request accepted",
      [.user_unsubscribed user.id, .notify user.email])

/-- `handle_unsubscribe` (source lines 1355-1412): the alias (or user) id
is parsed from the subject; any parse failure is caught and answered with
the wrongly-formatted-subject status. -/
def handle_unsubscribe (w : World) (env : Envelope) (msg : Msg) :
    String × List Effect :=
  match msg.subject with
  | none => ("550 SL E8 Wrongly formatted subject", [])
  | some subject =>
    if str_ends_with subject "*" && !(str_ends_with subject "=") then
      match (subject.dropRight 1).toNat? with
      | none => ("550 SL E8 Wrongly formatted subject", [])
      | some user_id => handle_unsubscribe_user w user_id env.mail_from
    else
      let aliasIdOpt :=
        if str_ends_with subject "=" then (subject.dropRight 1).toNat? else subject.toNat?
      match aliasIdOpt with
      | none => ("550 SL E8 Wrongly formatted subject", [])
      | some alias_id =>
        match w.alias_by_id alias_id with
        | none => ("550 SL E9 Email not exist", [])
        | some al =>
          match get_mailbox_from_mail_from env.mail_from al with
          | none => ("550 SL E10 unauthorized", [])
          | some _ =>
            ("250 Unsubscribe request accepted",
              Effect.alias_disabled al.id ::
                al.mailboxes.map (fun mb => Effect.notify mb.email))

/-- `handle_transactional_bounce` (source lines 1445-1455): record a
bounce against the transactional-email record, if it still exists. -/
def handle_transactional_bounce (w : World) (rcpt_to : String) : List Effect :=
  match w.transactional_by_id (w.parse_id_from_bounce rcpt_to) with
  | none => []
  | some t => [.bounce_recorded t.email]

/-- Effect trace of `handle_bounce_forward_phase` (source lines 1064-1183):
bounce counter, quarantined artifacts, bounce flag on the log, then either
a rate-limited user alert or (under the disable policy) disabling the
alias and notifying. -/
def handle_bounce_forward_phase (w : World) (email_log : EmailLog) : List Effect :=
  let contact := email_log.contact
  let al := contact.al
  let user := al.user
  let mailbox := email_log.mailbox.getD al.default_mailbox
  [.bounce_recorded mailbox.email, .quarantined, .log_marked_bounced email_log.id] ++
    (if !(w.should_disable al) then [.notify user.email]
     else [.alias_disabled al.id, .notify user.email])

/-- `handle_bounce_reply_phase` (source lines 1186-1255): persist the
bounce artifacts, flag the log, notify the mailbox owner, and answer the
reply-phase bounce status. -/
def handle_bounce_reply_phase (w : World) (email_log : EmailLog) :
    String × List Effect :=
  let contact := email_log.contact
  let al := contact.al
  let mailbox := email_log.mailbox.getD al.default_mailbox
  ("550 SL E24 Email cannot be sent to contact",
    [.bounce_recorded (w.sanitize_email contact.website_email), .quarantined,
      .log_marked_bounced email_log.id, .notify mailbox.email])

/-- The whole-envelope reduction shared by `handle` (source lines
1607-1613) and the re-injection inside `handle_bounce` (lines 1502-1508):
first successful outcome's status, else the first outcome's status;
`none` models the `IndexError` on an empty outcome list. -/
def reduce_res (res : List (Bool × String)) : Option String :=
  match res.find? (fun p => p.1) with
  | some p => some p.2
  | none =>
    match res with
    | [] => none
    | p :: _ => some p.2

/-- `handle_bounce` (source lines 1458-1513): map the bounce address back
to its EmailLog; a reply-phase log whose bounce does not look like a
delivery report (wrong content type, or non-empty bounce sender) is an
auto-reply and is re-injected to the owning alias as a fresh forward. -/
def handle_bounce (w : World) (env : Envelope) (rcpt_to : String) (msg : Msg)
    (n : Nat) : Option String × Nat × List Effect :=
  let email_log_id := w.parse_id_from_bounce rcpt_to
  match w.email_log_by_id email_log_id with
  | none => (some "550 SL E27 No such email log", n, [])
  | some email_log =>
    if email_log.is_reply then
      let content_type := str_to_lower msg.content_type
      if content_type ≠ "multipart/report" ∨ env.mail_from ≠ "<>" then
        let contact := email_log.contact
        let al := contact.al
        let e0 : List Effect := [.log_marked_auto_replied email_log.id]
        let env2 : Envelope := { env with rcpt_tos := [al.email] }
        match handle_forward w env2 msg al.email n with
        | (none, n1, e1) => (none, n1, e0 ++ e1)
        | (some res, n1, e1) => (reduce_res res, n1, e0 ++ e1)
      else
        let (s, e) := handle_bounce_reply_phase w email_log
        (some s, n, e)
    else
      (some "550 SL E26 Email cannot be forwarded to mailbox", n,
        handle_bounce_forward_phase w email_log)

/-- Outcome of the per-recipient dispatch loop in `handle` (source lines
1586-1605): an in-loop `return` (noreply sink), an escaping exception, or
the completed outcome list. -/
inductive LoopOut where
  | early (status : String)
  | raised
  | done (res : List (Bool × String))
deriving Repr, DecidableEq

/-- The per-recipient dispatch loop of `handle` (source lines 1586-1605):
the noreply sink returns immediately; reverse-alias recipients go to
`handle_reply` (whose list-shaped return raises on unpacking), the rest to
`handle_forward`. -/
def dispatch_loop (w : World) (env : Envelope) (msg : Msg) :
    List String → Nat → LoopOut × Nat × List Effect
  | [], n => (.done [], n, [])
  | rcpt :: rest, n =>
    if rcpt == w.noreply then
      (.early "550 SL E25 Email sent to noreply address", n, [])
    else if w.is_reply_email rcpt then
      match handle_reply w env msg rcpt n with
      | (.pair b s, n1, e1) =>
        (match dispatch_loop w env msg rest n1 with
         | (.done res, n2, e2) => (.done ((b, s) :: res), n2, e1 ++ e2)
         | (out, n2, e2) => (out, n2, e1 ++ e2))
      | (.single _ _, n1, e1) => (.raised, n1, e1)
    else
      match handle_forward w env msg rcpt n with
      | (none, n1, e1) => (.raised, n1, e1)
      | (some lst, n1, e1) =>
        match dispatch_loop w env msg rest n1 with
        | (.done res, n2, e2) => (.done (lst ++ res), n2, e1 ++ e2)
        | (out, n2, e2) => (out, n2, e1 ++ e2)

/-- The unsubscribe-envelope guard of `handle` (source line 1556):
`UNSUBSCRIBER and rcpt_tos == [UNSUBSCRIBER]`. -/
def is_unsubscribe_rcpt (w : World) (rcpt_tos : List String) : Bool :=
  strTruthy w.unsubscriber && rcpt_tos == [w.unsubscriber.getD ""]

/-- The transactional-bounce-envelope guard of `handle` (source lines
1561-1565). -/
def is_tx_bounce_rcpt (w : World) (rcpt_tos : List String) : Bool :=
  match rcpt_tos with
  | [r] => str_starts_with r w.tx_bounce_pre && str_ends_with r w.tx_bounce_suf
  | _ => false

/-- The delivery-bounce-envelope guard of `handle` (source lines
1570-1574). -/
def is_bounce_rcpt (w : World) (rcpt_tos : List String) : Bool :=
  match rcpt_tos with
  | [r] => str_starts_with r w.bounce_pre && str_ends_with r w.bounce_suf
  | _ => false

/-- `handle` (source lines 1516-1613): sanitize the envelope, reject a
reverse-alias sender, route unsubscribe/bounce envelopes, apply
greylisting, then dispatch per recipient and reduce the outcomes. `none`
models an exception escaping to the caller. -/
def handle (w : World) (env : Envelope) (msg : Msg) (n : Nat) :
    Option String × Nat × List Effect :=
  let mail_from := w.sanitize_email env.mail_from
  let rcpt_tos := env.rcpt_tos.map w.sanitize_email
  let env2 : Envelope := ⟨mail_from, rcpt_tos⟩
  if (w.contact_by_reply_email mail_from).isSome then
    (some "250 email can't be sent from a reverse-alias", n, [])
  else if is_unsubscribe_rcpt w rcpt_tos then
    let (s, e) := handle_unsubscribe w env2 msg
    (some s, n, e)
  else if is_tx_bounce_rcpt w rcpt_tos then
    (some "250 bounce handled", n, handle_transactional_bounce w (rcpt_tos.headD ""))
  else if is_bounce_rcpt w rcpt_tos then
    handle_bounce w env2 (rcpt_tos.headD "") msg n
  else if w.greylisting_needed mail_from rcpt_tos then
    (some "421 SL Retry later", n, [])
  else
    match dispatch_loop w env2 msg rcpt_tos n with
    | (.early s, n1, e1) => (some s, n1, e1)
    | (.raised, n1, e1) => (none, n1, e1)
    | (.done res, n1, e1) => (reduce_res res, n1, e1)

/-- `MailHandler.handle_DATA` (source lines 1616-1645): any exception
escaping `handle` is converted to the generic retry-later status. -/
def handle_DATA (w : World) (env : Envelope) (msg : Msg) (n : Nat) : String :=
  match handle w env msg n with
  | (some s, _, _) => s
  | (none, _, _) => "421 SL Retry later"

/-- The character of one decimal digit. -/
def digitChar (d : Nat) : Char := Char.ofNat (48 + d)

/-- The numeric value of one decimal digit character. -/
def charVal (c : Char) : Nat := c.toNat - 48

/-- Modelled from the spec: `encodeBounceAddress(deliveryLogId) -> address`
(§4.1, §6). The codec itself lives in `app/config.py` (`BOUNCE_EMAIL`,
`BOUNCE_PREFIX`, `BOUNCE_SUFFIX`), which is not under the provided source;
the spec fixes the wire format as the delivery-log id written in decimal
between a fixed prefix and suffix. -/
def encodeBounceAddress (pre suf : String) (n : Nat) : String :=
  pre ++ String.mk ((Nat.digits 10 n).reverse.map digitChar) ++ suf

/-- Modelled from the spec: `decodeBounceId(address) -> id` (§4.1,
`parse_id_from_bounce` in `app.email_utils`, not under the provided
source): strip the fixed prefix and suffix and read the decimal digits
back. -/
def decodeBounceId (pre suf : String) (s : String) : Nat :=
  let core := (s.data.take (s.data.length - suf.data.length)).drop pre.data.length
  Nat.ofDigits 10 ((core.map charVal).reverse)

/-! ## Concrete fixtures

A small deployment used to instantiate the universally quantified theorems
below: one user, one verified mailbox, one alias, one contact. -/

/-- The verified destination mailbox of the fixture deployment. -/
def mbMe : Mailbox :=
  ⟨1, "me@real.example", true, false, false, [], false⟩

/-- The fixture account owning the alias. -/
def userU : User := ⟨1, "login@real.example", false, none, false, false⟩

/-- The fixture alias, enabled, forwarding to `mbMe`. -/
def aliasA : Alias := ⟨1, "news@sl.example", userU, true, [mbMe], mbMe, none, false, false⟩

/-- The fixture contact of `aliasA` with reverse-alias `ra+xyz@sl.example`. -/
def contactC : Contact :=
  ⟨1, aliasA, "boss@corp.example", "ra+xyz@sl.example", false, none, 1⟩

/-- The fixture environment: `aliasA` and `contactC` are resolvable, all
oracles answer benignly (no spam, SPF pass, PGP fine, transport delivers). -/
def wBase : World where
  email_domain := "sl.example"
  unsubscriber := none
  noreply := "noreply@sl.example"
  bounce_pre := "bounces+"
  bounce_suf := "+b@sl.example"
  tx_bounce_pre := "transactional+"
  tx_bounce_suf := "+t@sl.example"
  enable_spam_assassin := false
  spamassassin_host := false
  max_spam_score := 5
  max_reply_phase_spam_score := 7
  enforce_spf := false
  contact_by_reply_email := fun s => if s = "ra+xyz@sl.example" then some contactC else none
  alias_by_email := fun s => if s = "news@sl.example" then some aliasA else none
  alias_by_id := fun i => if i = 1 then some aliasA else none
  user_by_id := fun i => if i = 1 then some userU else none
  email_log_by_id := fun _ => none
  transactional_by_id := fun _ => none
  try_auto_create := fun _ => none
  get_or_create_contact := fun _ _ _ => contactC
  sanitize_email := fun s => s
  is_reply_email := fun s => str_starts_with s "ra+" || str_starts_with s "reply+"
  normalize_reply_email := fun s => s
  is_valid_alias_address_domain := fun s => str_ends_with s "sl.example"
  get_email_domain_part := fun s => String.mk ((s.data.reverse.takeWhile (fun c => c ≠ '@')).reverse)
  greylisting_needed := fun _ _ => false
  parse_id_from_bounce := fun _ => 0
  should_disable := fun _ => false
  spam_score_of := fun _ => 0
  get_spam_info := fun _ _ => (false, "")
  spf_pass := fun _ _ => true
  pgp_encrypt_ok := true
  transport := fun _ => .ok

/-- A plain-text message from the fixture contact. -/
def msgPlain : Msg :=
  ⟨"text/plain", some "boss@corp.example", none, none⟩

/-- A delivery-status-notification message with empty bounce sender. -/
def msgReport : Msg := ⟨"multipart/report", none, none, none⟩

/-- The fixture user with the account disabled. -/
def userD : User := ⟨1, "login@real.example", true, none, false, false⟩

/-- `aliasA` owned by the disabled user. -/
def aliasD : Alias := ⟨1, "news@sl.example", userD, true, [mbMe], mbMe, none, false, false⟩

/-- `contactC` under the disabled user's alias. -/
def contactD : Contact :=
  ⟨1, aliasD, "boss@corp.example", "ra+xyz@sl.example", false, none, 1⟩

/-- The fixture environment with the alias owner's account disabled. -/
def wDisabledUser : World :=
  { wBase with
    contact_by_reply_email :=
      fun s => if s = "ra+xyz@sl.example" then some contactD else none
    alias_by_email := fun s => if s = "news@sl.example" then some aliasD else none }

/-- The fixture environment with SpamAssassin enabled and scoring every
message 8, above the reply-phase threshold 7. -/
def wSpam : World :=
  { wBase with
    enable_spam_assassin := true
    spamassassin_host := true
    spam_score_of := fun _ => 8 }

/-- `aliasA` with forwarding disabled. -/
def aliasOff : Alias := ⟨1, "news@sl.example", userU, false, [mbMe], mbMe, none, false, false⟩

/-- The fixture environment whose alias is disabled. -/
def wAliasOff : World :=
  { wBase with
    alias_by_email := fun s => if s = "news@sl.example" then some aliasOff else none }

/-- A reply-phase delivery log for `contactC`, id 42. -/
def logReply : EmailLog := ⟨42, contactC, true, some mbMe⟩

/-- The fixture environment that resolves bounce addresses to `logReply`. -/
def wBounce : World :=
  { wBase with
    email_log_by_id := fun i => if i = 42 then some logReply else none
    parse_id_from_bounce := fun _ => 42 }


/-- The class digit of an SMTP status line (`'2'` accepted, `'4'`
temporary failure, `'5'` permanent failure). -/
def status_class (s : String) : Option Char := s.data.head?


theorem charVal_digitChar : ∀ d, d < 10 → charVal (digitChar d) = d := by decide

theorem data_mk (l : List Char) : (String.mk l).data = l := rfl

/-- C8: decoding the bounce-tracking address built from delivery-log id
`n` yields `n` back, for every id and every prefix/suffix pair:
`decodeBounceId (encodeBounceAddress n) = n`. -/
theorem decodeBounceId_encodeBounceAddress (pre suf : String) (n : Nat) :
    decodeBounceId pre suf (encodeBounceAddress pre suf n) = n := by
  have hmap : ∀ l : List Nat, (∀ d ∈ l, d < 10) →
      (l.map digitChar).map charVal = l := by
    intro l hl
    rw [List.map_map]
    calc l.map (charVal ∘ digitChar) = l.map id := by
          apply List.map_congr_left
          intro d hd
          exact charVal_digitChar d (hl d hd)
      _ = l := List.map_id l
  have hdig : ∀ d ∈ (Nat.digits 10 n).reverse, d < 10 := by
    intro d hd
    exact Nat.digits_lt_base (by norm_num) (List.mem_reverse.mp hd)
  simp only [decodeBounceId, encodeBounceAddress, String.data_append, data_mk]
  rw [List.length_append, Nat.add_sub_cancel, List.take_left, List.drop_left,
    hmap _ hdig, List.reverse_reverse, Nat.ofDigits_digits]

/-- C2 counterexample: with the fixture deployment, an envelope whose
sender is `contactC`'s reverse-alias is answered with the success status
`"250 email can't be sent from a reverse-alias"` — not a 5xx status — and
with an empty effect trace, so no out-of-band alert is sent either. -/
theorem handle_reverse_alias_sender_returns_250 :
    handle wBase ⟨"ra+xyz@sl.example", ["news@sl.example"]⟩ msgPlain 0
      = (some "250 email can't be sent from a reverse-alias", 0, [])
    ∧ status_class "250 email can't be sent from a reverse-alias" ≠ some '5' := by
  exact ⟨rfl, by decide⟩

/-- C2 (amended): if the sanitized envelope sender is some Contact's
registered reverse-alias, `handle` terminates immediately with the
*success* status `"250 email can't be sent from a reverse-alias"`,
attempts no delivery and produces no side effect at all — in particular
no alert is sent (the violation is only logged). -/
theorem handle_reverse_alias_sender (w : World) (env : Envelope) (msg : Msg)
    (n : Nat) (c : Contact)
    (h : w.contact_by_reply_email (w.sanitize_email env.mail_from) = some c) :
    handle w env msg n
      = (some "250 email can't be sent from a reverse-alias", n, [])
    ∧ status_class "250 email can't be sent from a reverse-alias" = some '2' := by
  refine ⟨?_, by decide⟩
  unfold handle
  simp [h]

/-- Witness for C2 at the fixture deployment. -/
theorem handle_reverse_alias_sender_witness :
    wBase.contact_by_reply_email (wBase.sanitize_email "ra+xyz@sl.example")
        = some contactC
    ∧ handle wBase ⟨"ra+xyz@sl.example", ["news@sl.example"]⟩ msgPlain 3
        = (some "250 email can't be sent from a reverse-alias", 3, []) := by
  refine ⟨by decide, ?_⟩
  exact (handle_reverse_alias_sender wBase ⟨"ra+xyz@sl.example", ["news@sl.example"]⟩
    msgPlain 3 contactC (by decide)).1

/-- C4 (code bug): reply phase with resolvable contact, valid alias
domain, but a disabled owning account. `handle_reply` returns the
one-element *list* `[(False, "550 SL E20 Account disabled")]` (source
line 792) where every other path returns a tuple; the caller's tuple
unpacking at source line 1595 then raises `ValueError`, so the envelope's
final protocol response is the generic temporary-failure
`"421 SL Retry later"` from `handle_DATA`, not the intended 5xx status. -/
theorem handle_reply_disabled_user_escapes_as_421 :
    handle_reply wDisabledUser ⟨"me@real.example", ["ra+xyz@sl.example"]⟩
        msgPlain "ra+xyz@sl.example" 0
      = (.single false "550 SL E20 Account disabled", 0, [])
    ∧ handle wDisabledUser ⟨"me@real.example", ["ra+xyz@sl.example"]⟩ msgPlain 0
      = (none, 0, [])
    ∧ handle_DATA wDisabledUser ⟨"me@real.example", ["ra+xyz@sl.example"]⟩ msgPlain 0
      = "421 SL Retry later" := by
  exact ⟨rfl, rfl, rfl⟩

/-- C6: a forward to an existing but disabled alias (owning account
enabled, envelope sender not one of the alias's mailboxes) records one
blocked DeliveryLog, performs no delivery, and answers the success status
`"250 Message accepted for delivery"` — a 2xx, never a 5xx. -/
theorem handle_forward_disabled_alias (w : World) (env : Envelope) (msg : Msg)
    (rcpt : String) (al : Alias) (n : Nat)
    (hal : w.alias_by_email rcpt = some al)
    (hu : al.user.disabled = false)
    (hns : ∀ mb ∈ al.mailboxes, mb.email ≠ env.mail_from)
    (he : al.enabled = false) :
    handle_forward w env msg rcpt n
      = (some [(true, "250 Message accepted for delivery")], n + 1,
          [.log_created n false true])
    ∧ status_class "250 Message accepted for delivery" = some '2'
    ∧ ∀ f t, Effect.sendmail f t ∉ ([.log_created n false true] : List Effect) := by
  refine ⟨?_, by decide, by intro f t; simp⟩
  have hfind : al.mailboxes.find? (fun mb => mb.email == env.mail_from) = none := by
    apply List.find?_eq_none.mpr
    intro mb hmb
    simpa using hns mb hmb
  unfold handle_forward
  simp [hal, hu, hfind, he]

/-- Witness for C6 at the fixture deployment with `aliasOff` disabled. -/
theorem handle_forward_disabled_alias_witness :
    handle_forward wAliasOff ⟨"boss@corp.example", ["news@sl.example"]⟩ msgPlain
        "news@sl.example" 0
      = (some [(true, "250 Message accepted for delivery")], 1,
          [.log_created 0 false true]) := by
  exact (handle_forward_disabled_alias wAliasOff
    ⟨"boss@corp.example", ["news@sl.example"]⟩ msgPlain "news@sl.example" aliasOff 0
    (by decide) (by decide) (by decide) (by decide)).1

/-- C7: a forward whose envelope sender equals the address of one of the
alias's own destination mailboxes is treated as a send cycle: the message
is quarantined, the mailbox is alerted, the answer is the success status
`"250 Message accepted for delivery"`, and the outbound transport is never
invoked. -/
theorem handle_forward_self_send (w : World) (env : Envelope) (msg : Msg)
    (rcpt : String) (al : Alias) (n : Nat)
    (hal : w.alias_by_email rcpt = some al)
    (hu : al.user.disabled = false)
    (hmem : ∃ mb ∈ al.mailboxes, mb.email = env.mail_from) :
    ∃ mb, al.mailboxes.find? (fun b => b.email == env.mail_from) = some mb
      ∧ mb.email = env.mail_from
      ∧ handle_forward w env msg rcpt n
          = (some [(true, "250 Message accepted for delivery")], n,
              [.quarantined, .notify mb.email])
      ∧ ∀ f t, Effect.sendmail f t ∉
          ([.quarantined, .notify mb.email] : List Effect) := by
  have hsome : (al.mailboxes.find? (fun b => b.email == env.mail_from)).isSome := by
    apply List.find?_isSome.mpr
    obtain ⟨mb, hmb, hemail⟩ := hmem
    exact ⟨mb, hmb, by simp [hemail]⟩
  obtain ⟨mb, hfind⟩ := Option.isSome_iff_exists.mp hsome
  have heq : mb.email = env.mail_from := by
    have := List.find?_some hfind
    simpa using this
  refine ⟨mb, hfind, heq, ?_, by intro f t; simp⟩
  unfold handle_forward handle_email_sent_to_ourself
  simp [hal, hu, hfind]

/-- Witness for C7: the fixture mailbox `mbMe` mails its own alias. -/
theorem handle_forward_self_send_witness :
    ∃ mb, aliasA.mailboxes.find? (fun b => b.email == "me@real.example") = some mb
      ∧ mb.email = "me@real.example"
      ∧ handle_forward wBase ⟨"me@real.example", ["news@sl.example"]⟩ msgPlain
          "news@sl.example" 0
          = (some [(true, "250 Message accepted for delivery")], 0,
              [.quarantined, .notify mb.email])
      ∧ ∀ f t, Effect.sendmail f t ∉
          ([.quarantined, .notify mb.email] : List Effect) :=
  handle_forward_self_send wBase ⟨"me@real.example", ["news@sl.example"]⟩ msgPlain
    "news@sl.example" aliasA 0 (by decide) (by decide)
    ⟨mbMe, by decide, by decide⟩

/-- C5: a reply whose envelope sender is neither a mailbox address of the
alias nor one of their authorized addresses, with the spoofing check
enabled, is answered `"550 SL E7"` (permanent failure), never reaches the
outbound transport, and triggers exactly two notifications: first to the
alias owner, then to the unauthorized sender. -/
theorem handle_reply_unknown_sender (w : World) (env : Envelope) (msg : Msg)
    (rcpt : String) (c : Contact) (n : Nat)
    (hdom : str_ends_with rcpt w.email_domain = true)
    (hc : w.contact_by_reply_email (w.normalize_reply_email rcpt) = some c)
    (hv : w.is_valid_alias_address_domain c.al.email = true)
    (hu : c.al.user.disabled = false)
    (hm : get_mailbox_from_mail_from env.mail_from c.al = none)
    (hs : c.al.disable_email_spoofing_check = false) :
    handle_reply w env msg rcpt n
      = (.pair false "550 SL E7", n,
          [.notify c.al.user.email, .notify env.mail_from])
    ∧ status_class "550 SL E7" = some '5'
    ∧ ∀ f t, Effect.sendmail f t ∉
        ([.notify c.al.user.email, .notify env.mail_from] : List Effect) := by
  refine ⟨?_, by decide, by intro f t; simp⟩
  unfold handle_reply
  simp [hdom, hc, hv, hu, hm, hs]

/-- Witness for C5: a stranger address writes to `contactC`'s
reverse-alias in the fixture deployment. -/
theorem handle_reply_unknown_sender_witness :
    handle_reply wBase ⟨"stranger@evil.example", ["ra+xyz@sl.example"]⟩ msgPlain
        "ra+xyz@sl.example" 0
      = (.pair false "550 SL E7", 0,
          [.notify "login@real.example", .notify "stranger@evil.example"]) := by
  exact (handle_reply_unknown_sender wBase
    ⟨"stranger@evil.example", ["ra+xyz@sl.example"]⟩ msgPlain "ra+xyz@sl.example"
    contactC 0 (by decide) (by decide) (by decide) (by decide) (by decide)
    (by decide)).1

/-- C3 counterexample: in the fixture deployment with SpamAssassin scoring
8 (> reply-phase threshold 7), the spam reply is refused with
`"550 SL E15 Email detected as spam"`, but the DeliveryLog created for the
attempt (id 0) is *not* deleted: the trace contains its creation and its
spam flag and no deletion. -/
theorem handle_reply_spam_keeps_log :
    handle_reply wSpam ⟨"me@real.example", ["ra+xyz@sl.example"]⟩ msgPlain
        "ra+xyz@sl.example" 0
      = (.pair false "550 SL E15 Email detected as spam", 1,
          [.log_created 0 true false, .log_marked_spam 0, .quarantined,
            .notify "me@real.example"])
    ∧ Effect.log_deleted 0 ∉
        (handle_reply wSpam ⟨"me@real.example", ["ra+xyz@sl.example"]⟩ msgPlain
          "ra+xyz@sl.example" 0).2.2 := by
  exact ⟨rfl, by decide⟩

/-- C3 (amended): a reply whose spam score exceeds the fixed reply-phase
threshold is answered `"550 SL E15 Email detected as spam"`, the outbound
transport is not invoked, and the DeliveryLog created for the attempt is
*retained* — flagged spam, with the message quarantined and the mailbox
owner alerted — not deleted (deletion happens only on the
encryption-failure path, source line 899). -/
theorem handle_reply_spam (w : World) (env : Envelope) (msg : Msg)
    (rcpt : String) (c : Contact) (mailbox : Mailbox) (n : Nat)
    (hdom : str_ends_with rcpt w.email_domain = true)
    (hc : w.contact_by_reply_email (w.normalize_reply_email rcpt) = some c)
    (hv : w.is_valid_alias_address_domain c.al.email = true)
    (hu : c.al.user.disabled = false)
    (hm : get_mailbox_from_mail_from env.mail_from c.al = some mailbox)
    (hspf : (w.enforce_spf && mailbox.force_spf
        && !c.al.disable_email_spoofing_check
        && !(w.spf_pass env.mail_from mailbox)) = false)
    (hsa : w.enable_spam_assassin = true)
    (hh : w.spamassassin_host = true)
    (hscore : w.spam_score_of msg > w.max_reply_phase_spam_score) :
    handle_reply w env msg rcpt n
      = (.pair false "550 SL E15 Email detected as spam", n + 1,
          [.log_created n true false, .log_marked_spam n, .quarantined,
            .notify mailbox.email])
    ∧ status_class "550 SL E15 Email detected as spam" = some '5'
    ∧ (∀ f t, Effect.sendmail f t ∉
        ([.log_created n true false, .log_marked_spam n, .quarantined,
          .notify mailbox.email] : List Effect))
    ∧ Effect.log_deleted n ∉
        ([.log_created n true false, .log_marked_spam n, .quarantined,
          .notify mailbox.email] : List Effect)
    ∧ Effect.log_created n true false ∈
        ([.log_created n true false, .log_marked_spam n, .quarantined,
          .notify mailbox.email] : List Effect) := by
  refine ⟨?_, by decide, by intro f t; simp, by simp, by simp⟩
  have hdec : decide (w.spam_score_of msg > w.max_reply_phase_spam_score) = true :=
    decide_eq_true hscore
  unfold handle_reply reply_deliver
  simp [hdom, hc, hv, hu, hm, hspf, hsa, hh, hdec, handle_spam]

/-- Witness for C3 (amended) at the fixture deployment. -/
theorem handle_reply_spam_witness :
    handle_reply wSpam ⟨"me@real.example", ["ra+xyz@sl.example"]⟩ msgPlain
        "ra+xyz@sl.example" 5
      = (.pair false "550 SL E15 Email detected as spam", 6,
          [.log_created 5 true false, .log_marked_spam 5, .quarantined,
            .notify "me@real.example"]) := by
  exact (handle_reply_spam wSpam ⟨"me@real.example", ["ra+xyz@sl.example"]⟩
    msgPlain "ra+xyz@sl.example" contactC mbMe 5 (by decide) (by decide)
    (by decide) (by decide) (by decide) (by decide) (by decide) (by decide)
    (by decide)).1

/-- C9: a bounce address resolving to a reply-phase DeliveryLog is treated
as a vacation auto-reply whenever the content type (lowercased) is not
`multipart/report` or the bounce sender is non-empty: the log is marked
auto-replied and the message is re-injected as a fresh forward to the
owning alias (the recipient list is rewritten to the alias address and
`handle_forward` runs, its outcomes reduced as in `handle`); only a true
report from the null sender is processed as a reply-phase bounce. -/
theorem handle_bounce_reply_log (w : World) (env : Envelope) (msg : Msg)
    (rcpt : String) (n : Nat) (log : EmailLog)
    (res : List (Bool × String)) (n1 : Nat) (e1 : List Effect)
    (hlog : w.email_log_by_id (w.parse_id_from_bounce rcpt) = some log)
    (hrep : log.is_reply = true) :
    (str_to_lower msg.content_type ≠ "multipart/report" ∨ env.mail_from ≠ "<>" →
      handle_forward w { env with rcpt_tos := [log.contact.al.email] } msg
          log.contact.al.email n = (some res, n1, e1) →
      handle_bounce w env rcpt msg n
        = (reduce_res res, n1, Effect.log_marked_auto_replied log.id :: e1))
    ∧ (str_to_lower msg.content_type = "multipart/report" → env.mail_from = "<>" →
      handle_bounce w env rcpt msg n
        = (some "550 SL E24 Email cannot be sent to contact", n,
            [.bounce_recorded (w.sanitize_email log.contact.website_email),
              .quarantined, .log_marked_bounced log.id,
              .notify (log.mailbox.getD log.contact.al.default_mailbox).email])) := by
  constructor
  · intro hcond hfw
    unfold handle_bounce
    simp only [hlog, hrep]
    rw [if_pos hcond]
    simp [hfw]
  · intro hct hmf
    have hcond : ¬(str_to_lower msg.content_type ≠ "multipart/report"
        ∨ env.mail_from ≠ "<>") := by
      rw [hct, hmf]
      simp
    unfold handle_bounce
    simp only [hlog, hrep]
    rw [if_neg hcond]
    simp [handle_bounce_reply_phase]

/-- Witness for C9 (auto-reply branch): the fixture bounce for reply log
42 with a non-empty bounce sender is re-injected through
`handle_forward` and delivered to the fixture mailbox. -/
theorem handle_bounce_reply_log_witness :
    handle_bounce wBounce ⟨"mta@corp.example", ["bounces+42+b@sl.example"]⟩
        "bounces+42+b@sl.example" msgPlain 0
      = (reduce_res [(true, "250 Message accepted for delivery")], 1,
          Effect.log_marked_auto_replied 42 ::
            [Effect.log_created 0 false false,
              Effect.sendmail "bounces+0+b@sl.example" "me@real.example"]) := by
  exact (handle_bounce_reply_log wBounce
    ⟨"mta@corp.example", ["bounces+42+b@sl.example"]⟩ msgPlain
    "bounces+42+b@sl.example" 0 logReply
    [(true, "250 Message accepted for delivery")] 1
    [Effect.log_created 0 false false,
      Effect.sendmail "bounces+0+b@sl.example" "me@real.example"]
    (by decide) (by decide)).1 (Or.inr (by decide)) (by rfl)

/-- C1: an envelope that reaches the per-recipient dispatch loop (sender
is no reverse-alias, not an unsubscribe/bounce envelope, not greylisted)
and completes it with outcome list `res` is answered with the status of
the first successful outcome if any outcome succeeded, and only if every
outcome failed with the status of the first failure in recipient order. -/
theorem handle_any_success_reduction (w : World) (env : Envelope) (msg : Msg)
    (n : Nat) (res : List (Bool × String)) (n1 : Nat) (effs : List Effect)
    (h1 : w.contact_by_reply_email (w.sanitize_email env.mail_from) = none)
    (h2 : is_unsubscribe_rcpt w (env.rcpt_tos.map w.sanitize_email) = false)
    (h3 : is_tx_bounce_rcpt w (env.rcpt_tos.map w.sanitize_email) = false)
    (h4 : is_bounce_rcpt w (env.rcpt_tos.map w.sanitize_email) = false)
    (h5 : w.greylisting_needed (w.sanitize_email env.mail_from)
        (env.rcpt_tos.map w.sanitize_email) = false)
    (h6 : dispatch_loop w
        ⟨w.sanitize_email env.mail_from, env.rcpt_tos.map w.sanitize_email⟩ msg
        (env.rcpt_tos.map w.sanitize_email) n = (.done res, n1, effs)) :
    ((∃ p ∈ res, p.1 = true) →
      ∃ p, res.find? (fun q => q.1) = some p ∧ p.1 = true
        ∧ handle w env msg n = (some p.2, n1, effs))
    ∧ ((∀ p ∈ res, p.1 = false) → ∀ b0 s0 rest, res = (b0, s0) :: rest →
      handle w env msg n = (some s0, n1, effs)) := by
  have hh : handle w env msg n = (reduce_res res, n1, effs) := by
    unfold handle
    simp [h1, h2, h3, h4, h5, h6]
  constructor
  · rintro ⟨p, hp, hp1⟩
    have hsome : (res.find? (fun q => q.1)).isSome :=
      List.find?_isSome.mpr ⟨p, hp, by simp [hp1]⟩
    obtain ⟨q, hq⟩ := Option.isSome_iff_exists.mp hsome
    have hq1 : q.1 = true := by simpa using List.find?_some hq
    refine ⟨q, hq, hq1, ?_⟩
    rw [hh]
    unfold reduce_res
    rw [hq]
  · intro hall b0 s0 rest hres
    have hfind : res.find? (fun q => q.1) = none :=
      List.find?_eq_none.mpr (fun p hp => by simp [hall p hp])
    rw [hh]
    unfold reduce_res
    rw [hfind, hres]

/-- Witness for C1 at the fixture deployment: one successfully forwarded
recipient, whose status line becomes the envelope answer. -/
theorem handle_any_success_reduction_witness :
    ∃ p, [(true, "250 Message accepted for delivery")].find? (fun q => q.1) = some p
      ∧ p.1 = true
      ∧ handle wBase ⟨"boss@corp.example", ["news@sl.example"]⟩ msgPlain 0
          = (some p.2, 1,
              [Effect.log_created 0 false false,
                Effect.sendmail "bounces+0+b@sl.example" "me@real.example"]) := by
  exact (handle_any_success_reduction wBase
    ⟨"boss@corp.example", ["news@sl.example"]⟩ msgPlain 0
    [(true, "250 Message accepted for delivery")] 1
    [Effect.log_created 0 false false,
      Effect.sendmail "bounces+0+b@sl.example" "me@real.example"]
    (by decide) (by decide) (by decide) (by decide) (by decide) (by rfl)).1
    ⟨(true, "250 Message accepted for delivery"), by decide, rfl⟩

/-- If the dispatch loop completes a recipient list `pre` with outcome
list `res0`, then inserting the noreply sink right after `pre` makes the
loop abort with the noreply rejection at that recipient — whatever `res0`
contained and whatever recipients follow — with only `pre`'s effects
performed. -/
theorem dispatch_loop_noreply (w : World) (env : Envelope) (msg : Msg)
    (rest : List String) :
    ∀ pre n res0 n1 e1, dispatch_loop w env msg pre n = (.done res0, n1, e1) →
      dispatch_loop w env msg (pre ++ w.noreply :: rest) n
        = (.early "550 SL E25 Email sent to noreply address", n1, e1) := by
  intro pre
  induction pre with
  | nil =>
    intro n res0 n1 e1 h
    simp only [dispatch_loop, Prod.mk.injEq, LoopOut.done.injEq] at h
    obtain ⟨_, hn, he⟩ := h
    subst hn; subst he
    simp [dispatch_loop]
  | cons r pre ih =>
    intro n res0 n1 e1 h
    rw [List.cons_append]
    by_cases hbeq : (r == w.noreply) = true
    · simp only [dispatch_loop, hbeq, if_true] at h
      exact absurd h (by simp)
    · by_cases hrep : w.is_reply_email r = true
      · rcases hhr : handle_reply w env msg r n with ⟨rr, nn, ee⟩
        cases rr with
        | pair b s =>
          simp only [dispatch_loop, hbeq, hrep, hhr, if_true, if_false,
            Bool.false_eq_true] at h
          rcases hd : dispatch_loop w env msg pre nn with ⟨out, n2, e2⟩
          rw [hd] at h
          cases out with
          | early s2 => exact absurd h (by simp)
          | raised => exact absurd h (by simp)
          | done res2 =>
            simp only [Prod.mk.injEq, LoopOut.done.injEq] at h
            obtain ⟨_, hn, he⟩ := h
            subst hn; subst he
            have hih := ih nn res2 n2 e2 hd
            simp only [dispatch_loop, hbeq, hrep, hhr, if_true, if_false,
              Bool.false_eq_true, hih]
        | single b s =>
          simp only [dispatch_loop, hbeq, hrep, hhr, if_true, if_false,
            Bool.false_eq_true] at h
          exact absurd h (by simp)
      · rcases hhf : handle_forward w env msg r n with ⟨o, nn, ee⟩
        cases o with
        | none =>
          simp only [dispatch_loop, hbeq, hrep, hhf, if_true, if_false,
            Bool.false_eq_true] at h
          exact absurd h (by simp)
        | some lst =>
          simp only [dispatch_loop, hbeq, hrep, hhf, if_true, if_false,
            Bool.false_eq_true] at h
          rcases hd : dispatch_loop w env msg pre nn with ⟨out, n2, e2⟩
          rw [hd] at h
          cases out with
          | early s2 => exact absurd h (by simp)
          | raised => exact absurd h (by simp)
          | done res2 =>
            simp only [Prod.mk.injEq, LoopOut.done.injEq] at h
            obtain ⟨_, hn, he⟩ := h
            subst hn; subst he
            have hih := ih nn res2 n2 e2 hd
            simp only [dispatch_loop, hbeq, hrep, hhf, if_true, if_false,
              Bool.false_eq_true, hih]

/-- C10: an envelope whose sanitized recipient list reaches the dispatch
loop and contains the noreply sink is answered
`"550 SL E25 Email sent to noreply address"` the moment that recipient is
reached: the remaining recipients are skipped and any earlier recipient's
successful outcome is discarded — an exception to the any-success
reduction rule, with only the earlier recipients' effects performed. -/
theorem handle_noreply_recipient (w : World) (env : Envelope) (msg : Msg)
    (n : Nat) (pre rest : List String) (res0 : List (Bool × String))
    (n1 : Nat) (e1 : List Effect)
    (h1 : w.contact_by_reply_email (w.sanitize_email env.mail_from) = none)
    (h2 : is_unsubscribe_rcpt w (pre ++ w.noreply :: rest) = false)
    (h3 : is_tx_bounce_rcpt w (pre ++ w.noreply :: rest) = false)
    (h4 : is_bounce_rcpt w (pre ++ w.noreply :: rest) = false)
    (h5 : w.greylisting_needed (w.sanitize_email env.mail_from)
        (pre ++ w.noreply :: rest) = false)
    (hsplit : env.rcpt_tos.map w.sanitize_email = pre ++ w.noreply :: rest)
    (hpre : dispatch_loop w
        ⟨w.sanitize_email env.mail_from, pre ++ w.noreply :: rest⟩ msg pre n
        = (.done res0, n1, e1)) :
    handle w env msg n
      = (some "550 SL E25 Email sent to noreply address", n1, e1) := by
  have hloop := dispatch_loop_noreply w
    ⟨w.sanitize_email env.mail_from, pre ++ w.noreply :: rest⟩ msg rest pre n
    res0 n1 e1 hpre
  unfold handle
  rw [hsplit]
  simp [h1, h2, h3, h4, h5, hloop]

/-- Witness for C10 at the fixture deployment: the first recipient is
forwarded successfully, yet the noreply sink as second recipient makes the
whole envelope answer the noreply rejection, discarding that success. -/
theorem handle_noreply_recipient_witness :
    (true, "250 Message accepted for delivery")
        ∈ [((true : Bool), "250 Message accepted for delivery")]
    ∧ handle wBase ⟨"boss@corp.example", ["news@sl.example", "noreply@sl.example"]⟩
        msgPlain 0
      = (some "550 SL E25 Email sent to noreply address", 1,
          [Effect.log_created 0 false false,
            Effect.sendmail "bounces+0+b@sl.example" "me@real.example"]) := by
  refine ⟨by decide, ?_⟩
  exact handle_noreply_recipient wBase
    ⟨"boss@corp.example", ["news@sl.example", "noreply@sl.example"]⟩ msgPlain 0
    ["news@sl.example"] [] [(true, "250 Message accepted for delivery")] 1
    [Effect.log_created 0 false false,
      Effect.sendmail "bounces+0+b@sl.example" "me@real.example"]
    (by decide) (by decide) (by decide) (by decide) (by decide) (by decide)
    (by rfl)

end SL
